import Mathlib

/-!
Verification of the monitoring-and-alerting engine (`MonitorService` in
`src/services/monitor_service.py`) against its natural-language specification.

The engine's pure logic is shallowly embedded: health assessment
(`assess_overall_health`), threshold checking (`check_health_thresholds`),
alert creation with deduplication (`create_alert`, with the database modelled
as an ordered list of alert rows), WebSocket broadcast fan-out
(`broadcast_health_update`), and the start-monitoring lifecycle guard
(`start_monitoring`).  Timestamps are integers (seconds); metric values are
rationals.  The `Alert` ORM model itself (`models.py`) is not part of the
sources; its fields are reconstructed from their uses in
`monitor_service.py` and the spec's data model section.
-/

namespace Monitor

/-- Alert thresholds as configured in `MonitorService.__init__`
(`self.alert_thresholds`). -/
structure AlertThresholds where
  cpu_critical : Rat
  cpu_warning : Rat
  memory_critical : Rat
  memory_warning : Rat
  disk_critical : Rat
  disk_warning : Rat
  response_time_critical : Rat
  response_time_warning : Rat
deriving DecidableEq, Repr

/-- The concrete threshold table from `__init__`:
cpu 90/80, memory 95/85, disk 95/90, response time 5000/2000. -/
def alert_thresholds : AlertThresholds :=
  { cpu_critical := 90, cpu_warning := 80
    memory_critical := 95, memory_warning := 85
    disk_critical := 95, disk_warning := 90
    response_time_critical := 5000, response_time_warning := 2000 }

/-- The slice of a `health_data` dict that `assess_overall_health` and
`check_health_thresholds` read.  `ping_status` is
`health_data['checks']['ping']['status']` (absent keys give `none`),
`http_status` is `health_data['http_check']['status']`, and the three usage
metrics are `none` when the corresponding key is missing from the dict. -/
structure HealthData where
  ping_status : Option String
  cpu_usage : Option Rat
  memory_usage : Option Rat
  disk_usage : Option Rat
  http_status : Option String
deriving DecidableEq, Repr

/-- `MonitorService.assess_overall_health` (monitor_service.py lines 238-267).
Mirrors the code: ping down first, then critical thresholds, then warning
thresholds, then HTTP error, else healthy.  As in the code, a missing usage
metric is read with `health_data.get(key, 0)`, i.e. it defaults to `0`. -/
def assess_overall_health (h : HealthData) : String :=
  if h.ping_status = some "down" then "critical"
  else
    let cpu := h.cpu_usage.getD 0
    let mem := h.memory_usage.getD 0
    let dsk := h.disk_usage.getD 0
    if cpu > alert_thresholds.cpu_critical ∨ mem > alert_thresholds.memory_critical ∨
        dsk > alert_thresholds.disk_critical then "critical"
    else if cpu > alert_thresholds.cpu_warning ∨ mem > alert_thresholds.memory_warning ∨
        dsk > alert_thresholds.disk_warning then "warning"
    else if h.http_status = some "error" then "warning"
    else "healthy"

/-- Does an optional measurement exceed a threshold?  An absent measurement
exceeds nothing. -/
def optExceeds (v : Option Rat) (t : Rat) : Prop :=
  match v with
  | some x => x > t
  | none => False

instance (v : Option Rat) (t : Rat) : Decidable (optExceeds v t) := by
  unfold optExceeds; cases v <;> infer_instance

/-- Modelled from the spec: the Health Evaluator rules of section 4.2 with
unknown/missing metrics treated as genuinely absent (rules 2 and 3 are only
satisfiable by metrics that are actually present), for comparison with the
code's `assess_overall_health`. -/
def assess_missing_as_absent (h : HealthData) : String :=
  if h.ping_status = some "down" then "critical"
  else if optExceeds h.cpu_usage alert_thresholds.cpu_critical ∨
      optExceeds h.memory_usage alert_thresholds.memory_critical ∨
      optExceeds h.disk_usage alert_thresholds.disk_critical then "critical"
  else if optExceeds h.cpu_usage alert_thresholds.cpu_warning ∨
      optExceeds h.memory_usage alert_thresholds.memory_warning ∨
      optExceeds h.disk_usage alert_thresholds.disk_warning then "warning"
  else if h.http_status = some "error" then "warning"
  else "healthy"

/-- One-decimal rendering of a rational, standing in for Python's
`f'{v:.1f}'` in the alert message templates. -/
def fmt1 (v : Rat) : String :=
  let n : Int := ⌊v * 10 + 1 / 2⌋
  let s := if n < 0 then "-" else ""
  s ++ toString (n.natAbs / 10) ++ "." ++ toString (n.natAbs % 10)

/-- One entry of the `alerts_to_create` list built by
`check_health_thresholds`: a dict with severity, message, metric, value. -/
structure ThresholdAlert where
  severity : String
  message : String
  metric : String
  value : Rat
deriving DecidableEq, Repr

/-- `MonitorService.check_health_thresholds` (lines 492-557), restricted to
the list of alert dicts it accumulates (the trailing loop hands each entry to
`create_alert`).  Each of cpu/memory/disk is read with default `0` and
compared `critical` first, `elif warning`. -/
def check_health_thresholds (h : HealthData) : List ThresholdAlert :=
  let cpu := h.cpu_usage.getD 0
  let cpuAlerts : List ThresholdAlert :=
    if cpu > alert_thresholds.cpu_critical then
      [⟨"critical", "CPU usage critical: " ++ fmt1 cpu ++ "%", "cpu_usage", cpu⟩]
    else if cpu > alert_thresholds.cpu_warning then
      [⟨"warning", "CPU usage high: " ++ fmt1 cpu ++ "%", "cpu_usage", cpu⟩]
    else []
  let mem := h.memory_usage.getD 0
  let memAlerts : List ThresholdAlert :=
    if mem > alert_thresholds.memory_critical then
      [⟨"critical", "Memory usage critical: " ++ fmt1 mem ++ "%", "memory_usage", mem⟩]
    else if mem > alert_thresholds.memory_warning then
      [⟨"warning", "Memory usage high: " ++ fmt1 mem ++ "%", "memory_usage", mem⟩]
    else []
  let dsk := h.disk_usage.getD 0
  let dskAlerts : List ThresholdAlert :=
    if dsk > alert_thresholds.disk_critical then
      [⟨"critical", "Disk usage critical: " ++ fmt1 dsk ++ "%", "disk_usage", dsk⟩]
    else if dsk > alert_thresholds.disk_warning then
      [⟨"warning", "Disk usage high: " ++ fmt1 dsk ++ "%", "disk_usage", dsk⟩]
    else []
  cpuAlerts ++ memAlerts ++ dskAlerts

/-- One row of the `alerts` table.  The column set is the one
`create_alert` reads and writes (the `models.py` declaring the ORM model is
not among the sources; fields follow their uses and spec section 3).
Timestamps are integer seconds since an arbitrary epoch. -/
structure Alert where
  server_id : Int
  severity : String
  message : String
  status : String
  metric : Option String
  value : Option Rat
  count : Nat
  created_at : Int
  updated_at : Int
deriving DecidableEq, Repr

/-- The dedup filter of `create_alert` (lines 563-568): same `server_id`,
same `message`, `status == 'active'`, and
`created_at >= datetime.utcnow() - timedelta(minutes=10)` — ten minutes
being 600 seconds.  Note the code consults `created_at` only. -/
def dedupMatch (sid : Int) (msg : String) (now : Int) (a : Alert) : Bool :=
  a.server_id == sid && a.message == msg && a.status == "active" &&
    decide (now - 600 ≤ a.created_at)

/-- Modelled from the spec: the dedup lookup condition as section 4.3 words
it — an active alert with identical (target, message) "created or updated
within the trailing 10-minute window". -/
def specDedupMatch (sid : Int) (msg : String) (now : Int) (a : Alert) : Bool :=
  a.server_id == sid && a.message == msg && a.status == "active" &&
    (decide (now - 600 ≤ a.created_at) || decide (now - 600 ≤ a.updated_at))

/-- In-place update of the first row matching `p` (SQLAlchemy's
`.first()` row mutated, then committed). -/
def updateFirst (p : Alert → Bool) (f : Alert → Alert) : List Alert → List Alert
  | [] => []
  | a :: rest => if p a then f a :: rest else a :: updateFirst p f rest

/-- `MonitorService.create_alert` (lines 559-595) over a database state
modelled as the ordered list of alert rows.  Returns the alert the function
returns together with the new database state.  If the dedup query finds a
matching active row, that row's `count` is incremented and its `updated_at`
set to now, and no row is added; otherwise a fresh row with `count = 1`,
`status = 'active'`, `created_at = now` is inserted.  (`updated_at` of a
fresh row is not assigned in `create_alert`; the ORM default is not among
the sources and is modelled as the creation time.) -/
def create_alert (db : List Alert) (sid : Int) (sev msg : String)
    (metric : Option String) (value : Option Rat) (now : Int) : Alert × List Alert :=
  match db.find? (dedupMatch sid msg now) with
  | some a =>
      let a' : Alert := { a with count := a.count + 1, updated_at := now }
      (a', updateFirst (dedupMatch sid msg now)
            (fun b => { b with count := b.count + 1, updated_at := now }) db)
  | none =>
      let a : Alert :=
        { server_id := sid, severity := sev, message := msg, status := "active",
          metric := metric, value := value, count := 1,
          created_at := now, updated_at := now }
      (a, db ++ [a])

/-- A live WebSocket subscriber: its client id and whether `send_text`
succeeds for the event being broadcast (`deliverOk = false` models the
`except` branch). -/
structure Client where
  id : String
  deliverOk : Bool
deriving DecidableEq, Repr

/-- The fan-out loop of `broadcast_health_update`: walk the subscriber dict
in order, recording ids successfully sent to and ids whose send raised
(`disconnected_clients`). -/
def broadcastPass : List Client → List String × List String
  | [] => ([], [])
  | c :: rest =>
      let p := broadcastPass rest
      if c.deliverOk then (c.id :: p.1, p.2) else (p.1, c.id :: p.2)

/-- `MonitorService.remove_websocket_client` (lines 459-463): delete the
entry if the id is present. -/
def remove_websocket_client (clients : List Client) (cid : String) : List Client :=
  if clients.any (fun c => c.id == cid) then
    clients.filter (fun c => !(c.id == cid))
  else clients

/-- `MonitorService.broadcast_health_update` (lines 465-489) restricted to
its effect on the subscriber set: returns the ids that received the event
and the subscriber set after the post-pass cleanup loop.  An empty
subscriber dict returns immediately. -/
def broadcast_health_update (clients : List Client) : List String × List Client :=
  if clients.isEmpty then ([], clients)
  else
    let p := broadcastPass clients
    (p.1, p.2.foldl remove_websocket_client clients)

/-- The engine lifecycle state `start_monitoring` touches: the
`monitoring_active` flag and the number of monitoring loop tasks spawned
with `asyncio.create_task`. -/
structure EngineState where
  monitoring_active : Bool
  spawned_tasks : Nat
deriving DecidableEq, Repr

/-- `MonitorService.start_monitoring` (lines 41-55): if already active,
return immediately; otherwise set the flag and spawn the four loop tasks
(health, performance, service, network). -/
def start_monitoring (s : EngineState) : EngineState :=
  if s.monitoring_active then s
  else { monitoring_active := true, spawned_tasks := s.spawned_tasks + 4 }

/-! ## Theorems -/

/-- C2: for every measurement bundle in which the ping check reports the
target down, `assess_overall_health` returns `"critical"`, regardless of
every other metric in the bundle. -/
theorem assess_ping_down_critical (h : HealthData)
    (hping : h.ping_status = some "down") :
    assess_overall_health h = "critical" := by
  simp [assess_overall_health, hping]

/-- Witness for C2: a concrete bundle that is down but otherwise pristine
(all usage metrics measured well below every threshold). -/
theorem assess_ping_down_critical_witness :
    (HealthData.mk (some "down") (some 10) (some 10) (some 10) none).ping_status
        = some "down" ∧
    assess_overall_health
        (HealthData.mk (some "down") (some 10) (some 10) (some 10) none)
        = "critical" :=
  ⟨rfl, assess_ping_down_critical _ rfl⟩

/-- C9: `assess_overall_health` always returns one of the three strings
`"critical"`, `"warning"`, `"healthy"`; in particular it never returns
`"unhealthy"` or `"unknown"` (those arise only on other code paths, such as
the exception branch of `run_health_check`). -/
theorem assess_overall_health_range (h : HealthData) :
    (assess_overall_health h = "critical" ∨ assess_overall_health h = "warning" ∨
      assess_overall_health h = "healthy") ∧
    assess_overall_health h ≠ "unhealthy" ∧ assess_overall_health h ≠ "unknown" := by
  simp only [assess_overall_health]
  split_ifs <;> simp

/-- C4: a missing cpu/memory/disk metric is, as far as the verdict is
concerned, treated as absent: the code's `assess_overall_health` (which
reads missing metrics with default `0`) agrees on every bundle with the
spec's rules applied with missing metrics genuinely skipped.  Since every
configured threshold is positive, defaulting to `0` can satisfy no
threshold rule, so a missing metric never contributes a spurious verdict. -/
theorem assess_missing_metric_absent (h : HealthData) :
    assess_overall_health h = assess_missing_as_absent h := by
  unfold assess_overall_health assess_missing_as_absent alert_thresholds
  rcases h with ⟨ping, cpu, mem, dsk, http⟩
  rcases cpu with _ | c <;> rcases mem with _ | m <;> rcases dsk with _ | d <;>
    simp [optExceeds, Option.getD] <;> norm_num

/-- C5: for each tracked metric, if the measured value exceeds the critical
threshold then every alert `check_health_thresholds` raises for that metric
is the critical one — the warning alert for the same metric is never also
raised in the same evaluation (the `elif` makes critical take precedence). -/
theorem check_health_thresholds_critical_precedence (h : HealthData) (m : String)
    (hc : ∃ a ∈ check_health_thresholds h, a.metric = m ∧ a.severity = "critical") :
    ∀ b ∈ check_health_thresholds h, b.metric = m → b.severity = "critical" := by
  simp only [check_health_thresholds] at hc ⊢
  split_ifs at hc ⊢ <;> simp_all <;>
    (obtain rfl | rfl | rfl := hc <;> decide)

/-- Witness for C5: cpu measured at 95 (above the critical threshold 90):
the critical cpu alert exists and every cpu alert raised is critical. -/
theorem check_health_thresholds_critical_precedence_witness :
    (∃ a ∈ check_health_thresholds (HealthData.mk none (some 95) none none none),
        a.metric = "cpu_usage" ∧ a.severity = "critical") ∧
    (∀ b ∈ check_health_thresholds (HealthData.mk none (some 95) none none none),
        b.metric = "cpu_usage" → b.severity = "critical") :=
  ⟨by decide, check_health_thresholds_critical_precedence _ _ (by decide)⟩

/-- The sent component of the fan-out pass: exactly the ids of the clients
whose delivery succeeds, in order. -/
theorem broadcastPass_fst (l : List Client) :
    (broadcastPass l).1 = (l.filter (fun c => c.deliverOk)).map (fun c => c.id) := by
  induction l with
  | nil => rfl
  | cons c rest ih => cases hc : c.deliverOk <;> simp [broadcastPass, hc, ih]

/-- The `disconnected_clients` component of the fan-out pass: exactly the
ids of the clients whose delivery fails, in order. -/
theorem broadcastPass_snd (l : List Client) :
    (broadcastPass l).2 = (l.filter (fun c => !c.deliverOk)).map (fun c => c.id) := by
  induction l with
  | nil => rfl
  | cons c rest ih => cases hc : c.deliverOk <;> simp [broadcastPass, hc, ih]

/-- A boolean filter and its complement partition a list's length. -/
theorem length_filter_partition (p : Client → Bool) (l : List Client) :
    (l.filter p).length + (l.filter (fun c => !p c)).length = l.length := by
  induction l with
  | nil => rfl
  | cons c rest ih =>
      cases hc : p c <;> simp [List.filter_cons, hc] <;> omega

/-- C6: broadcasting with exactly one failing subscriber delivers the event
to every one of the other N−1 subscribers (the failure neither blocks nor
skips them), and the failing subscriber — and only it — is removed from the
subscriber set by the cleanup that runs after the full fan-out pass. -/
theorem broadcast_one_failure (clients : List Client) (f : Client)
    (hone : clients.filter (fun c => !c.deliverOk) = [f]) :
    (∀ c ∈ clients, c.deliverOk = true → c.id ∈ (broadcast_health_update clients).1) ∧
    (broadcast_health_update clients).1.length + 1 = clients.length ∧
    (broadcast_health_update clients).2
      = clients.filter (fun c => !(c.id == f.id)) := by
  have hfmem : f ∈ clients := by
    have : f ∈ clients.filter (fun c => !c.deliverOk) := by rw [hone]; exact List.mem_singleton.2 rfl
    exact (List.mem_filter.1 this).1
  have hisE : clients.isEmpty = false := by
    cases clients with
    | nil => simp at hone
    | cons a t => rfl
  have hbody : broadcast_health_update clients
      = ((broadcastPass clients).1,
         (broadcastPass clients).2.foldl remove_websocket_client clients) := by
    simp [broadcast_health_update, hisE]
  refine ⟨?_, ?_, ?_⟩
  · intro c hcmem hok
    rw [hbody]
    simp only [broadcastPass_fst]
    exact List.mem_map.2 ⟨c, List.mem_filter.2 ⟨hcmem, hok⟩, rfl⟩
  · rw [hbody]
    simp only [broadcastPass_fst, List.length_map]
    have hpart := length_filter_partition (fun c => c.deliverOk) clients
    have h1 : (clients.filter (fun c => !c.deliverOk)).length = 1 := by rw [hone]; rfl
    omega
  · rw [hbody]
    simp only [broadcastPass_snd, hone, List.map_cons, List.map_nil, List.foldl_cons,
      List.foldl_nil]
    have hany : clients.any (fun c => c.id == f.id) = true :=
      List.any_eq_true.2 ⟨f, hfmem, by simp⟩
    simp [remove_websocket_client, hany]

/-- Witness for C6: of three subscribers `"a"`, `"b"`, `"c"` where only
`"b"` fails, `"a"` and `"c"` both receive the event, the sent count is 2 of
3, and afterwards the subscriber set is exactly `"a"` and `"c"`. -/
theorem broadcast_one_failure_witness :
    "a" ∈ (broadcast_health_update
        [Client.mk "a" true, Client.mk "b" false, Client.mk "c" true]).1 ∧
    "c" ∈ (broadcast_health_update
        [Client.mk "a" true, Client.mk "b" false, Client.mk "c" true]).1 ∧
    (broadcast_health_update
        [Client.mk "a" true, Client.mk "b" false, Client.mk "c" true]).1.length + 1 = 3 ∧
    (broadcast_health_update
        [Client.mk "a" true, Client.mk "b" false, Client.mk "c" true]).2
      = [Client.mk "a" true, Client.mk "c" true] := by
  have h := broadcast_one_failure
    [Client.mk "a" true, Client.mk "b" false, Client.mk "c" true]
    (Client.mk "b" false) (by decide)
  refine ⟨h.1 (Client.mk "a" true) (by simp) rfl,
    h.1 (Client.mk "c" true) (by simp) rfl, h.2.1, ?_⟩
  rw [h.2.2]; decide

/-- C7: starting the engine when it is already active is a no-op —
`monitoring_active` stays set, no additional loop tasks are spawned, the
whole engine state is unchanged. -/
theorem start_monitoring_idempotent (s : EngineState)
    (hactive : s.monitoring_active = true) :
    start_monitoring s = s := by
  simp [start_monitoring, hactive]

/-- Witness for C7: an already-active engine with four spawned tasks is
left exactly as it is. -/
theorem start_monitoring_idempotent_witness :
    (EngineState.mk true 4).monitoring_active = true ∧
    start_monitoring (EngineState.mk true 4) = EngineState.mk true 4 :=
  ⟨rfl, start_monitoring_idempotent _ rfl⟩

/-- `updateFirst` leaves the number of rows unchanged. -/
theorem updateFirst_length (p : Alert → Bool) (f : Alert → Alert) :
    ∀ l : List Alert, (updateFirst p f l).length = l.length := by
  intro l
  induction l with
  | nil => rfl
  | cons a rest ih =>
      by_cases ha : p a <;> simp [updateFirst, ha, ih]

/-- If `find?` locates row `a`, the list splits around that first match and
`updateFirst` rewrites exactly that row, leaving every other row as it was. -/
theorem updateFirst_decomp (p : Alert → Bool) (f : Alert → Alert) :
    ∀ (l : List Alert) (a : Alert), l.find? p = some a →
      ∃ pre post, l = pre ++ a :: post ∧ updateFirst p f l = pre ++ f a :: post := by
  intro l
  induction l with
  | nil => intro a h; simp at h
  | cons x rest ih =>
      intro a h
      by_cases hx : p x
      · rw [List.find?_cons_of_pos _ hx] at h
        obtain rfl : x = a := by injection h
        exact ⟨[], rest, rfl, by simp [updateFirst, hx]⟩
      · rw [List.find?_cons_of_neg _ hx] at h
        obtain ⟨pre, post, h1, h2⟩ := ih a h
        exact ⟨x :: pre, post, by simp [h1], by simp [updateFirst, hx, h2]⟩

/-- C1: submitting the identical (target, message) violation twice, the
second time within the 10-minute window of the first, leaves exactly one
alert row, with `count = 2` (and `updated_at` bumped to the second time);
submitting it a third time after the window has expired appends a second,
independent alert row with `count = 1`. -/
theorem create_alert_dedup_idempotent (sid : Int) (sev msg : String)
    (metric : Option String) (value : Option Rat) (t0 t1 t2 : Int)
    (h01 : t0 ≤ t1) (hwin : t1 ≤ t0 + 600) (hexp : t1 + 600 < t2) :
    (create_alert (create_alert [] sid sev msg metric value t0).2
        sid sev msg metric value t1).2
      = [Alert.mk sid sev msg "active" metric value 2 t0 t1] ∧
    ∃ b : Alert,
      (create_alert (create_alert (create_alert [] sid sev msg metric value t0).2
          sid sev msg metric value t1).2 sid sev msg metric value t2).2
        = [Alert.mk sid sev msg "active" metric value 2 t0 t1, b] ∧
      b.count = 1 ∧ b.server_id = sid ∧ b.severity = sev ∧ b.message = msg ∧
      b.status = "active" ∧ b.created_at = t2 := by
  have e1 : (create_alert [] sid sev msg metric value t0).2
      = [Alert.mk sid sev msg "active" metric value 1 t0 t0] := rfl
  have hm1 : dedupMatch sid msg t1 (Alert.mk sid sev msg "active" metric value 1 t0 t0)
      = true := by
    simp only [dedupMatch]
    simp only [beq_self_eq_true, Bool.true_and, decide_eq_true_eq]
    omega
  have f2 : List.find? (dedupMatch sid msg t1)
      [Alert.mk sid sev msg "active" metric value 1 t0 t0]
      = some (Alert.mk sid sev msg "active" metric value 1 t0 t0) :=
    List.find?_cons_of_pos _ hm1
  have e2 : (create_alert [Alert.mk sid sev msg "active" metric value 1 t0 t0]
      sid sev msg metric value t1).2
      = [Alert.mk sid sev msg "active" metric value 2 t0 t1] := by
    unfold create_alert
    rw [f2]
    simp [updateFirst, hm1]
  have hm3 : dedupMatch sid msg t2 (Alert.mk sid sev msg "active" metric value 2 t0 t1)
      = false := by
    simp only [dedupMatch]
    simp only [beq_self_eq_true, Bool.true_and, decide_eq_false_iff_not]
    omega
  have f3 : List.find? (dedupMatch sid msg t2)
      [Alert.mk sid sev msg "active" metric value 2 t0 t1] = none := by
    rw [List.find?_cons_of_neg _ (by simp [hm3])]
    rfl
  have e3 : (create_alert [Alert.mk sid sev msg "active" metric value 2 t0 t1]
      sid sev msg metric value t2).2
      = [Alert.mk sid sev msg "active" metric value 2 t0 t1,
         Alert.mk sid sev msg "active" metric value 1 t2 t2] := by
    unfold create_alert
    rw [f3]
    rfl
  rw [e1, e2]
  exact ⟨rfl, Alert.mk sid sev msg "active" metric value 1 t2 t2,
    by rw [e3], rfl, rfl, rfl, rfl, rfl, rfl⟩

/-- Witness for C1: server 1, message `"m"`, calls at times 0, 300
(within the window) and 1000 (after it): one row with count 2, then a
second row with count 1. -/
theorem create_alert_dedup_idempotent_witness :
    (create_alert (create_alert [] 1 "critical" "m" none none 0).2
        1 "critical" "m" none none 300).2
      = [Alert.mk 1 "critical" "m" "active" none none 2 0 300] ∧
    ∃ b : Alert,
      (create_alert (create_alert (create_alert [] 1 "critical" "m" none none 0).2
          1 "critical" "m" none none 300).2 1 "critical" "m" none none 1000).2
        = [Alert.mk 1 "critical" "m" "active" none none 2 0 300, b] ∧
      b.count = 1 ∧ b.server_id = 1 ∧ b.severity = "critical" ∧ b.message = "m" ∧
      b.status = "active" ∧ b.created_at = 1000 :=
  create_alert_dedup_idempotent 1 "critical" "m" none none 0 300 1000
    (by decide) (by decide) (by decide)

/-- C3 counterexample: an active alert for (server 1, message `"m"`)
updated 50 seconds ago but created 700 seconds ago satisfies the spec's
lookup condition ("created or updated within the trailing 10-minute
window"), yet `create_alert` does not match it: the code's filter consults
`created_at` only, so a second row is created (two rows, both `count = 1`)
instead of the claimed in-place update. -/
theorem create_alert_spec_window_counterexample :
    specDedupMatch 1 "m" 700 (Alert.mk 1 "critical" "m" "active" none none 1 0 650)
      = true ∧
    dedupMatch 1 "m" 700 (Alert.mk 1 "critical" "m" "active" none none 1 0 650)
      = false ∧
    (create_alert [Alert.mk 1 "critical" "m" "active" none none 1 0 650]
        1 "critical" "m" none none 700).2.length = 2 ∧
    (create_alert [Alert.mk 1 "critical" "m" "active" none none 1 0 650]
        1 "critical" "m" none none 700).2.map (fun a => a.count) = [1, 1] := by
  decide

/-- C3 as amended: the dedup lookup of `create_alert` matches if and only
if some row is an active alert with identical (server id, message) whose
`created_at` lies within the trailing 10-minute window — `updated_at` is
not consulted.  A match is updated in place (the row count of the database
is unchanged); otherwise a new row is appended. -/
theorem create_alert_dedup_window_iff (db : List Alert) (sid : Int) (sev msg : String)
    (metric : Option String) (value : Option Rat) (now : Int) :
    (∃ a ∈ db, a.server_id = sid ∧ a.message = msg ∧ a.status = "active" ∧
        now - 600 ≤ a.created_at) ↔
      (create_alert db sid sev msg metric value now).2.length = db.length := by
  have hiff : (∃ a ∈ db, a.server_id = sid ∧ a.message = msg ∧ a.status = "active" ∧
      now - 600 ≤ a.created_at) ↔ (db.find? (dedupMatch sid msg now)).isSome = true := by
    rw [List.find?_isSome]
    constructor
    · rintro ⟨a, hmem, h1, h2, h3, h4⟩
      exact ⟨a, hmem, by simp [dedupMatch, h1, h2, h3, h4]⟩
    · rintro ⟨a, hmem, hmatch⟩
      simp only [dedupMatch, Bool.and_eq_true, beq_iff_eq, decide_eq_true_eq] at hmatch
      exact ⟨a, hmem, hmatch.1.1.1, hmatch.1.1.2, hmatch.1.2, hmatch.2⟩
  rw [hiff]
  cases hfind : db.find? (dedupMatch sid msg now) with
  | none =>
      unfold create_alert
      rw [hfind]
      simp
  | some a =>
      unfold create_alert
      rw [hfind]
      simp [updateFirst_length]

/-- C8: whenever a `create_alert` call deduplicates into an existing active
alert (the lookup finds row `a`) and real time has not run backwards
(`a.updated_at ≤ now`), the returned alert's count is exactly `a.count + 1`
— so `count` strictly increases by one per update and never decreases — and
its `updated_at` is `now`, so `updated_at` is non-decreasing across
successive updates. -/
theorem create_alert_monotonic (db : List Alert) (sid : Int) (sev msg : String)
    (metric : Option String) (value : Option Rat) (now : Int) (a : Alert)
    (hfind : db.find? (dedupMatch sid msg now) = some a)
    (hclock : a.updated_at ≤ now) :
    (create_alert db sid sev msg metric value now).1.count = a.count + 1 ∧
    a.count < (create_alert db sid sev msg metric value now).1.count ∧
    (create_alert db sid sev msg metric value now).1.updated_at = now ∧
    a.updated_at ≤ (create_alert db sid sev msg metric value now).1.updated_at := by
  unfold create_alert
  rw [hfind]
  exact ⟨rfl, by simp, rfl, hclock⟩

/-- Witness for C8: a matching active alert with count 3 last updated at 50
is updated at time 100: count becomes 4 (strictly larger), `updated_at`
moves forward to 100. -/
theorem create_alert_monotonic_witness :
    (create_alert [Alert.mk 1 "critical" "m" "active" none none 3 0 50]
        1 "critical" "m" none none 100).1.count = 4 ∧
    3 < (create_alert [Alert.mk 1 "critical" "m" "active" none none 3 0 50]
        1 "critical" "m" none none 100).1.count ∧
    (create_alert [Alert.mk 1 "critical" "m" "active" none none 3 0 50]
        1 "critical" "m" none none 100).1.updated_at = 100 ∧
    (50 : Int) ≤ (create_alert [Alert.mk 1 "critical" "m" "active" none none 3 0 50]
        1 "critical" "m" none none 100).1.updated_at := by
  have h := create_alert_monotonic
    [Alert.mk 1 "critical" "m" "active" none none 3 0 50]
    1 "critical" "m" none none 100
    (Alert.mk 1 "critical" "m" "active" none none 3 0 50) (by decide) (by decide)
  exact ⟨h.1, h.2.1, h.2.2.1, h.2.2.2⟩

/-- C10: when `create_alert` deduplicates into existing row `a`, the
returned alert keeps `a`'s severity, message, metric, value, status and
`created_at` unchanged — even though this call's `sev`, `metric`, `value`
arguments are arbitrary and may differ from `a`'s — and the new database is
`db` with exactly that row replaced by the count/updated_at bump, every
other row untouched. -/
theorem create_alert_frame (db : List Alert) (sid : Int) (sev msg : String)
    (metric : Option String) (value : Option Rat) (now : Int) (a : Alert)
    (hfind : db.find? (dedupMatch sid msg now) = some a) :
    (create_alert db sid sev msg metric value now).1.severity = a.severity ∧
    (create_alert db sid sev msg metric value now).1.message = a.message ∧
    (create_alert db sid sev msg metric value now).1.metric = a.metric ∧
    (create_alert db sid sev msg metric value now).1.value = a.value ∧
    (create_alert db sid sev msg metric value now).1.status = a.status ∧
    (create_alert db sid sev msg metric value now).1.created_at = a.created_at ∧
    ∃ pre post, db = pre ++ a :: post ∧
      (create_alert db sid sev msg metric value now).2
        = pre ++ ({ a with count := a.count + 1, updated_at := now } : Alert) :: post := by
  unfold create_alert
  rw [hfind]
  refine ⟨rfl, rfl, rfl, rfl, rfl, rfl, ?_⟩
  exact updateFirst_decomp _ _ db a hfind

/-- Witness for C10: a two-row database whose second row matches; the call
supplies a different severity (`"warning"`), metric and value, yet the
returned alert keeps the row's `"critical"` severity, original metric,
value and creation time, and only that row is rewritten. -/
theorem create_alert_frame_witness :
    (create_alert
        [Alert.mk 2 "warning" "other" "active" none none 1 0 0,
         Alert.mk 1 "critical" "m" "active" (some "cpu_usage") (some 92) 2 10 40]
        1 "warning" "m" (some "disk_usage") (some 50) 500).1.severity = "critical" ∧
    (create_alert
        [Alert.mk 2 "warning" "other" "active" none none 1 0 0,
         Alert.mk 1 "critical" "m" "active" (some "cpu_usage") (some 92) 2 10 40]
        1 "warning" "m" (some "disk_usage") (some 50) 500).1.metric = some "cpu_usage" ∧
    (create_alert
        [Alert.mk 2 "warning" "other" "active" none none 1 0 0,
         Alert.mk 1 "critical" "m" "active" (some "cpu_usage") (some 92) 2 10 40]
        1 "warning" "m" (some "disk_usage") (some 50) 500).1.value = some 92 ∧
    (create_alert
        [Alert.mk 2 "warning" "other" "active" none none 1 0 0,
         Alert.mk 1 "critical" "m" "active" (some "cpu_usage") (some 92) 2 10 40]
        1 "warning" "m" (some "disk_usage") (some 50) 500).1.created_at = 10 ∧
    ∃ pre post,
      [Alert.mk 2 "warning" "other" "active" none none 1 0 0,
       Alert.mk 1 "critical" "m" "active" (some "cpu_usage") (some 92) 2 10 40]
        = pre ++ Alert.mk 1 "critical" "m" "active" (some "cpu_usage") (some 92) 2 10 40
            :: post ∧
      (create_alert
          [Alert.mk 2 "warning" "other" "active" none none 1 0 0,
           Alert.mk 1 "critical" "m" "active" (some "cpu_usage") (some 92) 2 10 40]
          1 "warning" "m" (some "disk_usage") (some 50) 500).2
        = pre ++ ({ Alert.mk 1 "critical" "m" "active" (some "cpu_usage") (some 92) 2 10 40
              with count := 2 + 1, updated_at := 500 } : Alert) :: post := by
  have h := create_alert_frame
    [Alert.mk 2 "warning" "other" "active" none none 1 0 0,
     Alert.mk 1 "critical" "m" "active" (some "cpu_usage") (some 92) 2 10 40]
    1 "warning" "m" (some "disk_usage") (some 50) 500
    (Alert.mk 1 "critical" "m" "active" (some "cpu_usage") (some 92) 2 10 40) (by decide)
  exact ⟨h.1, h.2.2.1, h.2.2.2.1, h.2.2.2.2.2.1, h.2.2.2.2.2.2⟩

end Monitor
